import Mathlib

/-!
Shallow embedding of the `oduortoni/websocket` Go library (package `ws`):
the identity type (`ws/identity.go`), the session / envelope supporting
types (`ws/session_validator.go`, `ws/envelope.go`), the connection handle
(`NewClient`) and the connection lifecycle manager (`ServeHTTP`,
`HandleClient`).

Modelling conventions: Go `[]byte` is `List Nat`; Go `error` results are
`Option Err` (`none` = nil error) or `Except Err α` for `(α, error)`
pairs; a `*websocket.Conn` is identified by a `Nat` transport handle; a
buffered channel is a list together with its capacity; side effects of
the lifecycle (handler invocations, transport closes, persister calls)
are recorded as an explicit event list.
-/

namespace WS

/-- Go `error` values, kept opaque: the core only tests them against nil. -/
abbrev Err := String

/-- A raw wire frame, Go `[]byte`. -/
abbrev Frame := List Nat

/-! ## Identity (`ws/identity.go`)

`type Identity uuid.UUID`: a `uuid.UUID` is an array of 16 bytes. -/

/-- `Identity` wraps the 16 raw bytes of a `uuid.UUID`. -/
structure Identity where
  bytes : Fin 16 → Nat

instance : DecidableEq Identity := fun a b =>
  decidable_of_iff (a.bytes = b.bytes) (by cases a; cases b; simp)

/-- The all-zero identity: Go's zero value `ws.Identity{}`. -/
def zeroIdentity : Identity := ⟨fun _ => 0⟩

/-- Go's `hextable` constant in `encoding/hex`. -/
def hextable : String := "0123456789abcdef"

/-- The sixteen lowercase hex digits, as characters. -/
def hexChars : List Char := hextable.data

/-- One hex digit (`hextable[n]`). -/
def hexDigit (n : Nat) : Char := hexChars.getD n '0'

/-- `encoding/hex` encodes a byte `b` as `hextable[b>>4], hextable[b&0x0f]`. -/
def byteHex (b : Nat) : List Char := [hexDigit (b / 16), hexDigit (b % 16)]

/-- Model of `uuid.UUID.String` from `github.com/google/uuid` (`encodeHex`):
hex of bytes 0-3, '-', bytes 4-5, '-', bytes 6-7, '-', bytes 8-9, '-',
bytes 10-15.  `Identity.String` delegates to it unchanged. -/
def identityChars (u : Fin 16 → Nat) : List Char :=
  byteHex (u 0) ++ byteHex (u 1) ++ byteHex (u 2) ++ byteHex (u 3) ++ ['-'] ++
  byteHex (u 4) ++ byteHex (u 5) ++ ['-'] ++
  byteHex (u 6) ++ byteHex (u 7) ++ ['-'] ++
  byteHex (u 8) ++ byteHex (u 9) ++ ['-'] ++
  byteHex (u 10) ++ byteHex (u 11) ++ byteHex (u 12) ++ byteHex (u 13) ++
  byteHex (u 14) ++ byteHex (u 15)

/-- `func (i Identity) String() string`. -/
def Identity.String (i : Identity) : String := String.mk (identityChars i.bytes)

/-! ## Supporting types (`ws/session_validator.go`, `ws/envelope.go`) -/

/-- `SessionInfo`: authenticated identity plus string-to-string metadata
(`map[string]string` modelled as an association list). -/
structure SessionInfo where
  ClientID : Identity
  Metadata : List (String × String)

/-- Opaque stand-in for Go empty-interface payload values. -/
structure GoValue where
  tag : Nat

/-- `Envelope` (`ws/envelope.go`): timestamps are abstract `Nat` instants,
`Delivered *time.Time` is an `Option`; the `Type` field is rendered
`Type'` because `Type` is a Lean keyword. -/
structure Envelope where
  ID : Identity
  ClientID : Identity
  Type' : String
  Payload : List (String × GoValue)
  Timestamp : Nat
  Delivered : Option Nat

/-- `EnvelopePersister` interface: two operations, each returning a Go
error (`none` = nil). -/
structure EnvelopePersister where
  SaveEnvelope : Envelope → Option Err
  ConfirmDelivery : Identity → Identity → Option Err

/-! ## Connection handle (`NewClient`) -/

/-- `Client`: the connection handle.  `Send chan []byte` is modelled as
its buffer contents plus its capacity; `Conn` is the transport handle;
`Connected` the creation instant. -/
structure Client where
  ID : Identity
  Conn : Nat
  SendCap : Nat
  SendBuf : List Frame
  Connected : Nat

/-- `func NewClient(id Identity, conn *websocket.Conn) *Client`:
`Send: make(chan []byte, 256)` gives an empty queue of capacity 256;
`Connected: time.Now()` is the supplied instant. -/
def NewClient (id : Identity) (conn : Nat) (now : Nat) : Client :=
  { ID := id
  , Conn := conn
  , SendCap := 256
  , SendBuf := []
  , Connected := now }

/-- Outcome of a non-blocking channel send
(`select { case ch <- msg: ... default: ... }` on the buffered channel). -/
inductive SendResult where
  | ok (q : List Frame)
  | full
deriving DecidableEq

/-- Non-blocking enqueue on a buffered channel of capacity `cap`: succeeds
iff the buffer is below capacity, otherwise the `default` branch fires. -/
def trySend (cap : Nat) (q : List Frame) (msg : Frame) : SendResult :=
  if q.length < cap then .ok (q ++ [msg]) else .full

/-- Operations other tasks may perform on a client's send channel. -/
inductive QueueOp where
  | send (msg : Frame)
  | recv

/-- Effect of one operation on the channel buffer: a send uses the
non-blocking attempt (dropped when full), a receive takes the oldest
element. -/
def applyOp (cap : Nat) (q : List Frame) : QueueOp → List Frame
  | .send msg =>
    match trySend cap q msg with
    | .ok q2 => q2
    | .full => q
  | .recv => q.drop 1

/-- Buffer contents after a sequence of channel operations. -/
def runOps (cap : Nat) (q : List Frame) : List QueueOp → List Frame
  | [] => q
  | op :: rest => runOps cap (applyOp cap q op) rest

/-! ## Connection lifecycle manager (`handler.go`: `WebsocketHandler`) -/

/-- An inbound HTTP upgrade request, opaque to the core: only the
collaborators inspect it. -/
structure Request where
  headers : List (String × String)

/-- A `SessionValidator` implementation: `Validate(r) (SessionInfo, error)`. -/
abbrev SessionValidatorFn := Request → Except Err SessionInfo

/-- A `MessageHandler` implementation: `Handle(client, data) error`
(`none` = nil error). -/
abbrev MessageHandlerFn := Client → Frame → Option Err

/-- Observable side effects of the lifecycle of one request/connection. -/
inductive Event where
  /-- `messager.Handle(client, message)` invoked with this client id and frame. -/
  | handle (id : Identity) (frame : Frame)
  /-- `client.Conn.Close()` called on this transport handle. -/
  | closeConn (conn : Nat)
  /-- `persister.SaveEnvelope(...)` called. -/
  | saveEnvelope
  /-- `persister.ConfirmDelivery(...)` called. -/
  | confirmDelivery
deriving DecidableEq

/-- What `ServeHTTP` did for one request: the `http.Error` response it
wrote (status code and body), every `Client` it constructed with
`NewClient` (in order), whether it registered the deferred
`client.Conn.Close()`, and whether it spawned `go HandleClient`. -/
structure ServeResult where
  status : Option (Nat × String)
  clients : List Client
  deferredClose : Bool
  spawned : Bool

/-- `func (h *WebsocketHandler) ServeHTTP(w, r)`.  The validator outcome
and the `upgrader.Upgrade` outcome (a transport handle on success) are the
request's environment; `now` is the instant `NewClient` stamps.

Go source, step by step: a non-nil validation error writes
`http.Error(w, "Unauthorized", http.StatusUnauthorized)` and returns; a
non-nil upgrade error writes
`http.Error(w, "WebSocket upgrade failed", http.StatusInternalServerError)`
and returns; otherwise `NewClient(session.ClientID, conn)` runs,
`defer client.Conn.Close()` is registered, and `go HandleClient(...)` is
spawned. -/
def ServeHTTP (validate : Except Err SessionInfo) (upgrade : Except Err Nat)
    (now : Nat) : ServeResult :=
  match validate with
  | .error _ =>
    { status := some (401, "Unauthorized")
    , clients := []
    , deferredClose := false
    , spawned := false }
  | .ok session =>
    match upgrade with
    | .error _ =>
      { status := some (500, "WebSocket upgrade failed")
      , clients := []
      , deferredClose := false
      , spawned := false }
    | .ok conn =>
      let client := NewClient session.ClientID conn now
      { status := none
      , clients := [client]
      , deferredClose := true
      , spawned := true }

/-- The read-loop body of `HandleClient`, for one terminating execution.
`frames` is the sequence of frames `client.Conn.ReadMessage()` delivers
before it finally fails (a blocking read either yields a frame or an
error; a terminating run reads some finite list of frames and then an
error, which breaks the loop).  Mirrors the Go loop: on a successful
read, `messager.Handle(client, message)` runs; a non-nil handler error
hits `continue`, a nil one falls through to the next iteration — either
way the loop proceeds to the next read. -/
def readLoop (client : Client) (messager : MessageHandlerFn) :
    List Frame → List Event
  | [] => []
  | frame :: rest =>
    match messager client frame with
    | some _ => Event.handle client.ID frame :: readLoop client messager rest
    | none => Event.handle client.ID frame :: readLoop client messager rest

/-- `func HandleClient(client *Client, messager MessageHandler, persister
EnvelopePersister)`: run the read loop until the read error, then
`client.Conn.Close()`.  Returns the events of this terminating execution. -/
def HandleClient (client : Client) (messager : MessageHandlerFn)
    (persister : EnvelopePersister) (frames : List Frame) : List Event :=
  readLoop client messager frames ++ [Event.closeConn client.Conn]

/-- All events of one request's lifecycle, combining the spawned
`HandleClient` task and the deferred `Conn.Close()` that runs when
`ServeHTTP` returns (the two run concurrently; this list is read as the
multiset of effects). -/
def lifecycleEvents (validate : Except Err SessionInfo)
    (upgrade : Except Err Nat) (now : Nat) (messager : MessageHandlerFn)
    (persister : EnvelopePersister) (frames : List Frame) : List Event :=
  let r := ServeHTTP validate upgrade now
  (r.clients.map fun client => HandleClient client messager persister frames).flatten ++
    (match r.clients with
     | [] => []
     | client :: _ => if r.deferredClose then [Event.closeConn client.Conn] else [])

/-- Number of `Conn.Close()` calls on transport `conn` among the events. -/
def closeCalls (conn : Nat) (evs : List Event) : Nat :=
  evs.countP fun e =>
    match e with
    | .closeConn c => c == conn
    | _ => false

/-- Number of persister invocations (`SaveEnvelope` or `ConfirmDelivery`)
among the events. -/
def persistCalls (evs : List Event) : Nat :=
  evs.countP fun e =>
    match e with
    | .saveEnvelope => true
    | .confirmDelivery => true
    | _ => false

/-- The frames handed to the Message Handler, in order. -/
def handledFrames (evs : List Event) : List Frame :=
  evs.filterMap fun e =>
    match e with
    | .handle _ frame => some frame
    | _ => none

/-- The connection handles constructed over a whole trace of requests,
each request given by its validator outcome, upgrade outcome and arrival
instant.  While none of their read loops has exited, all of them are
simultaneously live. -/
def spawnedClients (trace : List (Except Err SessionInfo × Except Err Nat × Nat)) :
    List Client :=
  (trace.map fun t => (ServeHTTP t.1 t.2.1 t.2.2).clients).flatten

/-- The `ClientID`s the validator returned on requests that were accepted
(validation and upgrade both succeeded), in order. -/
def acceptedIDs (trace : List (Except Err SessionInfo × Except Err Nat × Nat)) :
    List Identity :=
  trace.filterMap fun t =>
    match t.1, t.2.1 with
    | .ok session, .ok _ => some session.ClientID
    | _, _ => none

/-- The demo application's `SessionValidator` (`examples` entry point):
`return ws.SessionInfo{}, nil` — the zero `SessionInfo` (zero `ClientID`,
nil metadata) and a nil error, for every request. -/
def demoValidate (_r : Request) : Except Err SessionInfo :=
  .ok { ClientID := zeroIdentity, Metadata := [] }

/-! ## The Identity Generator's exposed operations (`ws/identity.go`)

`ws/identity.go` is the whole Identity Generator: it declares exactly
three operations — `NewIdentity`, `String`, `UUID`.  To reason about
which operations exist, the API surface is enumerated with its Go
signatures. -/

/-- The Go types occurring in `ws/identity.go` signatures, plus the
result pair a parsing operation would have. -/
inductive GoTy where
  | identity
  | uuid
  | str
  /-- the Go result pair `(Identity, error)` -/
  | identityAndError
deriving DecidableEq

/-- An operation signature: argument types (receiver first when present)
and result type. -/
structure OpSig where
  args : List GoTy
  ret : GoTy
deriving DecidableEq

/-- The operations declared in `ws/identity.go`. -/
inductive IdentityOp where
  /-- `func NewIdentity() Identity` -/
  | newIdentity
  /-- `func (i Identity) String() string` -/
  | toStr
  /-- `func (i Identity) UUID() uuid.UUID` -/
  | toUUID
deriving DecidableEq

/-- Signature of each declared operation, read off the source. -/
def opSig : IdentityOp → OpSig
  | .newIdentity => ⟨[], .identity⟩
  | .toStr => ⟨[.identity], .str⟩
  | .toUUID => ⟨[.identity], .uuid⟩

/-- The full exposed API of the Identity Generator. -/
def identityOps : List IdentityOp := [.newIdentity, .toStr, .toUUID]

/-- The signature a parsing operation (canonical text in, `Identity` or
error out) would have. -/
def parseSig : OpSig := ⟨[.str], .identityAndError⟩

/-- The signature of canonical string formatting. -/
def formatSig : OpSig := ⟨[.identity], .str⟩

/-! ## Helper lemmas (shared; not claim theorems) -/

/-- The read loop hands every read frame to the handler, in read order,
whatever the handler returns. -/
theorem readLoop_eq (client : Client) (messager : MessageHandlerFn)
    (frames : List Frame) :
    readLoop client messager frames = frames.map (Event.handle client.ID) := by
  induction frames with
  | nil => rfl
  | cons frame rest ih =>
    cases h : messager client frame <;> simp [readLoop, h, ih]

/-- Full characterisation of a terminating `HandleClient` run. -/
theorem handleClient_eq (client : Client) (messager : MessageHandlerFn)
    (persister : EnvelopePersister) (frames : List Frame) :
    HandleClient client messager persister frames =
      frames.map (Event.handle client.ID) ++ [Event.closeConn client.Conn] := by
  simp [HandleClient, readLoop_eq]

/-- The channel buffer never grows beyond capacity under any sequence of
operations. -/
theorem runOps_length_le (cap : Nat) (q : List Frame) (ops : List QueueOp)
    (hq : q.length ≤ cap) : (runOps cap q ops).length ≤ cap := by
  induction ops generalizing q with
  | nil => exact hq
  | cons op rest ih =>
    refine ih (applyOp cap q op) ?_
    cases op with
    | send msg =>
      by_cases h : q.length < cap
      · simp [applyOp, trySend, h]
        exact h
      · simp [applyOp, trySend, h]
        exact hq
    | recv =>
      simp only [applyOp, List.length_drop]
      omega

/-- Out of range, the table lookup falls back to its default digit. -/
theorem hexDigit_of_ge (n : Nat) (h : ¬ n < 16) : hexDigit n = '0' := by
  have hlen : hexChars.length ≤ n := by
    have h16 : hexChars.length = 16 := by decide
    omega
  simp [hexDigit, List.getD_eq_getElem?_getD, List.getElem?_eq_none hlen]

/-- Every hex digit the encoder can emit is one of the sixteen table
characters. -/
theorem hexDigit_mem (n : Nat) : hexChars.contains (hexDigit n) = true := by
  by_cases h : n < 16
  · interval_cases n <;> decide
  · rw [hexDigit_of_ge n h]
    decide

/-- No hex digit is an uppercase letter. -/
theorem hexDigit_lower (n : Nat) : (hexDigit n).isUpper = false := by
  by_cases h : n < 16
  · interval_cases n <;> decide
  · rw [hexDigit_of_ge n h]
    decide

/-- Membership form of `hexDigit_mem`. -/
theorem hexDigit_mem_list (n : Nat) : hexDigit n ∈ hexChars := by
  simpa using hexDigit_mem n

/-- No hex digit is the hyphen. -/
theorem hexDigit_ne_dash (n : Nat) : (hexDigit n == '-') = false := by
  by_cases h : n < 16
  · interval_cases n <;> decide
  · rw [hexDigit_of_ge n h]
    decide

/-! ## Claim theorems -/

/-- C1: whenever the Session Validator returns a non-nil error, `ServeHTTP`
responds 401 Unauthorized, constructs no Connection Handle, spawns no read
loop, and the whole lifecycle produces no events at all — in particular the
Message Handler is never invoked for that request. -/
theorem validator_error_unauthorized_nothing_else
    (e : Err) (upgrade : Except Err Nat) (now : Nat)
    (messager : MessageHandlerFn) (persister : EnvelopePersister)
    (frames : List Frame) :
    (ServeHTTP (.error e) upgrade now).status = some (401, "Unauthorized") ∧
    (ServeHTTP (.error e) upgrade now).clients = [] ∧
    (ServeHTTP (.error e) upgrade now).spawned = false ∧
    lifecycleEvents (.error e) upgrade now messager persister frames = [] := by
  refine ⟨rfl, rfl, rfl, ?_⟩
  simp [lifecycleEvents, ServeHTTP]

/-- C3: when validation and the upgrade handshake both succeed, `ServeHTTP`
constructs exactly one Connection Handle, its `ID` is the `ClientID` of the
validator's `SessionInfo` (not a freshly generated identity), the read loop
is spawned for it, and the loop's handler invocations carry exactly that
handle's id. -/
theorem accepted_request_one_client_validator_id
    (session : SessionInfo) (conn : Nat) (now : Nat)
    (messager : MessageHandlerFn) (persister : EnvelopePersister)
    (frames : List Frame) :
    (ServeHTTP (.ok session) (.ok conn) now).clients =
      [NewClient session.ClientID conn now] ∧
    (NewClient session.ClientID conn now).ID = session.ClientID ∧
    (ServeHTTP (.ok session) (.ok conn) now).spawned = true ∧
    (ServeHTTP (.ok session) (.ok conn) now).status = none ∧
    handledFrames
        (lifecycleEvents (.ok session) (.ok conn) now messager persister frames) =
      frames := by
  refine ⟨rfl, rfl, rfl, rfl, ?_⟩
  simp [lifecycleEvents, ServeHTTP, handleClient_eq, handledFrames,
    List.filterMap_append, List.filterMap_map, Function.comp_def]

/-- C5: when validation succeeds but the upgrade handshake fails, `ServeHTTP`
responds 500 with the upgrade-failure message, constructs no Connection
Handle, and spawns nothing — processing stops. -/
theorem upgrade_error_500_no_client
    (session : SessionInfo) (e : Err) (now : Nat) :
    (ServeHTTP (.ok session) (.error e) now).status =
      some (500, "WebSocket upgrade failed") ∧
    (ServeHTTP (.ok session) (.error e) now).clients = [] ∧
    (ServeHTTP (.ok session) (.error e) now).spawned = false := by
  exact ⟨rfl, rfl, rfl⟩

/-- C2 (failing-input evaluation): on an accepted connection whose peer
closes immediately (no frames read), the code closes the transport twice —
once by `HandleClient` after the read loop and once by the `defer
client.Conn.Close()` registered in `ServeHTTP` — not exactly once as the
spec requires. -/
theorem transport_closed_twice_not_once :
    closeCalls 7
      (lifecycleEvents (.ok ⟨zeroIdentity, []⟩) (.ok 7) 0
        (fun _ _ => none) ⟨fun _ => none, fun _ _ => none⟩ []) = 2 := by
  rfl

/-- C4: a terminating read-loop run hands the handler exactly the frames
read, in the exact order read; the trace does not depend on the handler (so
a failing `Handle` call never skips, reorders, or terminates anything), and
the loop ends — with the transport close — only after the read error, i.e.
after all frames. -/
theorem read_loop_in_order_handler_errors_ignored
    (client : Client) (m1 m2 : MessageHandlerFn)
    (p1 p2 : EnvelopePersister) (frames : List Frame) :
    handledFrames (HandleClient client m1 p1 frames) = frames ∧
    HandleClient client m1 p1 frames = HandleClient client m2 p2 frames ∧
    HandleClient client m1 p1 frames =
      frames.map (Event.handle client.ID) ++ [Event.closeConn client.Conn] := by
  refine ⟨?_, ?_, handleClient_eq client m1 p1 frames⟩
  · simp [handleClient_eq, handledFrames, List.filterMap_append,
      List.filterMap_map, Function.comp_def]
  · rw [handleClient_eq, handleClient_eq]

/-- C10: the read loop never touches the Envelope Persister it receives: no
execution of `HandleClient` performs a `SaveEnvelope` or `ConfirmDelivery`
call. -/
theorem handleClient_no_persister_calls
    (client : Client) (messager : MessageHandlerFn)
    (persister : EnvelopePersister) (frames : List Frame) :
    persistCalls (HandleClient client messager persister frames) = 0 := by
  simp [handleClient_eq, persistCalls, List.countP_append, List.countP_cons]

/-- C7: a Connection Handle's outbound queue is created with capacity 256
and empty; under any sequence of channel operations its contents never
exceed 256; and a non-blocking enqueue attempted when the queue is at
capacity yields the `full` outcome instead of enqueueing. -/
theorem send_queue_bounded_full_fails_fast
    (id : Identity) (conn : Nat) (now : Nat) (ops : List QueueOp)
    (msg : Frame) :
    (NewClient id conn now).SendCap = 256 ∧
    (NewClient id conn now).SendBuf = [] ∧
    (runOps (NewClient id conn now).SendCap (NewClient id conn now).SendBuf
        ops).length ≤ 256 ∧
    ((runOps (NewClient id conn now).SendCap (NewClient id conn now).SendBuf
          ops).length = 256 →
      trySend (NewClient id conn now).SendCap
        (runOps (NewClient id conn now).SendCap
          (NewClient id conn now).SendBuf ops) msg = .full) := by
  refine ⟨rfl, rfl, runOps_length_le 256 [] ops (by simp), ?_⟩
  intro hfull
  simp only [NewClient] at hfull ⊢
  simp [trySend, hfull]

/-- Repeated below-capacity non-blocking sends each enqueue one message. -/
theorem runOps_replicate_send (cap : Nat) (m : Frame) :
    ∀ (n : Nat) (q : List Frame), q.length + n ≤ cap →
      (runOps cap q (List.replicate n (QueueOp.send m))).length = q.length + n
  | 0, q, _ => by simp [runOps]
  | n + 1, q, h => by
    have hlt : q.length < cap := by omega
    have hrec := runOps_replicate_send cap m n (q ++ [m]) (by simp; omega)
    simp only [List.replicate_succ, runOps, applyOp, trySend, if_pos hlt]
    rw [hrec]
    simp
    omega

/-- C6 counterexample: no operation exposed by `ws/identity.go` has the
signature of a parsing operation (canonical text in, `Identity` or error
out) — the module only declares `NewIdentity`, `String` and `UUID`. -/
theorem identity_api_no_parse_counterexample :
    (identityOps.any fun op => opSig op == parseSig) = false := by decide

/-- C6 amended: the Identity Generator exposes canonical string formatting
(`String`, of signature `Identity → string`), but no parsing operation from
the canonical textual form back to `Identity`: every exposed operation's
signature differs from the parsing signature, so no `InvalidFormat` failure
can arise in this module. -/
theorem identity_api_format_only :
    (identityOps.any fun op => opSig op == formatSig) = true ∧
    (identityOps.all fun op => !(opSig op == parseSig)) = true := by decide

/-- C8 counterexample: two upgrade requests validated by the repository's
own demo Session Validator — which returns the zero `SessionInfo` with a
nil error for every request — are both accepted; while neither read loop
has exited, the two simultaneously live Connection Handles carry the same
(zero) Identity. -/
theorem live_clients_share_id_counterexample :
    ¬ ((spawnedClients
          [(demoValidate ⟨[]⟩, .ok 0, 0), (demoValidate ⟨[]⟩, .ok 1, 1)]).Pairwise
        fun a b => a.ID ≠ b.ID) := by
  decide

/-- The dash entry of the canonical form satisfies the canonical-character
predicate. -/
theorem dash_canonChar :
    ((hexChars.contains '-' || '-' == '-') && !('-'.isUpper)) = true := by
  decide

/-- C7 witness: 256 successful enqueues fill the fresh queue to capacity,
and the next non-blocking enqueue fails with `full`. -/
theorem send_queue_full_witness :
    trySend (NewClient zeroIdentity 0 0).SendCap
      (runOps (NewClient zeroIdentity 0 0).SendCap
        (NewClient zeroIdentity 0 0).SendBuf
        (List.replicate 256 (QueueOp.send []))) [] = .full :=
  (send_queue_bounded_full_fails_fast zeroIdentity 0 0
      (List.replicate 256 (QueueOp.send [])) []).2.2.2
    (by
      have h := runOps_replicate_send 256 [] 256 [] (by simp)
      simp only [List.length_nil, Nat.zero_add] at h
      show (runOps 256 [] (List.replicate 256 (QueueOp.send []))).length = 256
      exact h)

/-- C8 amended: every live Connection Handle's Identity is exactly the
`ClientID` the Session Validator returned for its (accepted) request, in
order of acceptance; consequently simultaneously live handles have
pairwise-distinct identities precisely when the validator supplies
pairwise-distinct `ClientID`s — the core itself enforces no uniqueness. -/
theorem client_ids_are_validator_ids
    (trace : List (Except Err SessionInfo × Except Err Nat × Nat)) :
    (spawnedClients trace).map Client.ID = acceptedIDs trace ∧
    ((acceptedIDs trace).Pairwise (fun a b => a ≠ b) →
      (spawnedClients trace).Pairwise fun a b => a.ID ≠ b.ID) := by
  have hmap : (spawnedClients trace).map Client.ID = acceptedIDs trace := by
    induction trace with
    | nil => rfl
    | cons t rest ih =>
      obtain ⟨v, u, now⟩ := t
      cases v with
      | error e => simpa [spawnedClients, acceptedIDs, ServeHTTP] using ih
      | ok s =>
        cases u with
        | error e => simpa [spawnedClients, acceptedIDs, ServeHTTP] using ih
        | ok c =>
          simpa [spawnedClients, acceptedIDs, ServeHTTP, NewClient] using ih
  refine ⟨hmap, fun hpw => ?_⟩
  rw [← hmap] at hpw
  exact List.pairwise_map.mp hpw

/-- C8 amended witness: when the validator returns two distinct
`ClientID`s for two accepted requests, the two live handles have distinct
identities. -/
theorem client_ids_distinct_witness :
    (spawnedClients
        [(.ok ⟨zeroIdentity, []⟩, .ok 0, 0),
         (.ok ⟨⟨fun _ => 1⟩, []⟩, .ok 1, 1)]).Pairwise
      (fun a b => a.ID ≠ b.ID) :=
  (client_ids_are_validator_ids
      [(.ok ⟨zeroIdentity, []⟩, .ok 0, 0),
       (.ok ⟨⟨fun _ => 1⟩, []⟩, .ok 1, 1)]).2 (by decide)

/-- C9: for every identity, `String` returns the canonical textual form:
36 characters; every character is a lowercase hex digit or a hyphen and
none is uppercase; the characters decompose into five all-hex groups of
lengths 8, 4, 4, 4 and 12 separated by single hyphens (so the hyphens sit
exactly at positions 8, 13, 18 and 23), and there are exactly 4 hyphens. -/
theorem identity_string_canonical (u : Fin 16 → Nat) :
    (Identity.String ⟨u⟩).length = 36 ∧
    ((identityChars u).all
        fun c => (hexChars.contains c || c == '-') && !c.isUpper) = true ∧
    (∃ g1 g2 g3 g4 g5 : List Char,
      identityChars u =
        g1 ++ '-' :: (g2 ++ '-' :: (g3 ++ '-' :: (g4 ++ '-' :: g5))) ∧
      g1.length = 8 ∧ g2.length = 4 ∧ g3.length = 4 ∧ g4.length = 4 ∧
      g5.length = 12 ∧
      ((g1 ++ g2 ++ g3 ++ g4 ++ g5).all fun c => hexChars.contains c) = true) ∧
    ((identityChars u).countP fun c => c == '-') = 4 := by
  refine ⟨?_, ?_, ?_, ?_⟩
  · simp [Identity.String, identityChars, byteHex, String.length]
  · simp [identityChars, byteHex, List.all_append, List.all_cons,
      hexDigit_mem, hexDigit_mem_list, hexDigit_lower, dash_canonChar]
  · refine ⟨byteHex (u 0) ++ byteHex (u 1) ++ byteHex (u 2) ++ byteHex (u 3),
      byteHex (u 4) ++ byteHex (u 5), byteHex (u 6) ++ byteHex (u 7),
      byteHex (u 8) ++ byteHex (u 9),
      byteHex (u 10) ++ byteHex (u 11) ++ byteHex (u 12) ++ byteHex (u 13) ++
        byteHex (u 14) ++ byteHex (u 15), ?_, ?_, ?_, ?_, ?_, ?_, ?_⟩
    · simp [identityChars, byteHex]
    · simp [byteHex]
    · simp [byteHex]
    · simp [byteHex]
    · simp [byteHex]
    · simp [byteHex]
    · simp [byteHex, List.all_append, List.all_cons, hexDigit_mem,
        hexDigit_mem_list]
  · simp [identityChars, byteHex, List.countP_append, List.countP_cons,
      hexDigit_ne_dash]

end WS
